import Mathlib

/-!
noot: a single HTTP GET whose outcome is printed.

Verification development for `main.go`.  The program is one function, `main`,
which talks to three parts of its environment: the HTTP client (`http.Get`),
the response body stream (`ioutil.ReadAll`, `Close`) and standard output
(`fmt.Println`).  The embedding passes an explicit state that records every
such call in order, together with every request the HTTP client hands to its
transport while serving the call (the default client follows redirects), keeps
the stack of deferred calls, and is fed the transport's answers by an oracle,
so that both the bytes written and the sequence of effects can be stated.
-/

namespace Noot

/-! ## Data model -/

/-- Go strings and byte slices are sequences of bytes. -/
abbrev Bytes := List UInt8

/-- The bytes of a Go string literal (Go source text is UTF-8). -/
def lit (s : String) : Bytes := s.toUTF8.data.toList

/-- A non-nil Go `error` value; `Error` is the text its `Error()` method yields,
which is what `fmt` renders for it. -/
structure GoError where
  Error : Bytes
  deriving DecidableEq, Repr

/-- The stream `resp.Body`, described by what the environment answers on it:
`ioutil.ReadAll` returns `(data, readErr)`, where on failure `data` holds the
bytes read before the failure, and `Close` returns `closeErr`. -/
structure ReadCloser where
  data : Bytes
  readErr : Option GoError
  closeErr : Option GoError
  deriving DecidableEq, Repr

/-- The fields of `http.Response` that `main` touches. -/
structure Response where
  Status : Bytes
  Body : ReadCloser
  deriving DecidableEq, Repr

/-- The pair `(resp, err)` returned by `http.Get`: either `err != nil` (`main`
then does not touch `resp`), or a response whose body is usable. -/
inductive GetResult where
  | fail (err : GoError)
  | ok (resp : Response)
  deriving DecidableEq, Repr

/-- The answer of the transport to one GET request, as the client of
`http.Get` classifies it.
* `fail err`: no response could be used (DNS, connection, TLS, timeout, a
  `Location` that does not parse); `err` is the error `http.Get` returns for
  it, that is the cause wrapped as `Get "<url>": <cause>`.
* `ok resp`: a response the client hands back to the caller (any status that
  is not a redirect, or a redirect status without `Location`).
* `redirect location stopped`: a redirect response (301, 302, 303, 307, 308)
  with a `Location` that resolves to `location`; `stopped` is the error
  `http.Get` returns if the redirect policy refuses to follow it,
  `Get "<Location>": stopped after 10 redirects`. -/
inductive RoundTrip where
  | fail (err : GoError)
  | ok (resp : Response)
  | redirect (location : Bytes) (stopped : GoError)
  deriving DecidableEq, Repr

/-- The network as an oracle: the answer to the `n`-th GET request (counted
from 0) handed to the transport, sent to a given URL. -/
abbrev Env := Bytes → Nat → RoundTrip

/-- One observable effect of the program.
* `httpGet url`: `main` calls `http.Get(url)`.
* `get url`: the HTTP client hands one GET request for `url` to its transport
  (what a mock transport counts).
* `readAll`, `close`, `println`: `main` calls `ioutil.ReadAll`, `Close` on the
  body of the response it was given, `fmt.Println`. -/
inductive Event where
  | httpGet (url : Bytes)
  | get (url : Bytes)
  | readAll
  | close
  | println (operands : List Bytes)
  deriving DecidableEq, Repr

/-- A call registered with `defer`. -/
inductive Deferred where
  | closeBody (body : ReadCloser)
  deriving DecidableEq, Repr

/-- How a Go process ends. -/
inductive Termination where
  | returned
  | exited (code : Nat)
  | panicked
  deriving DecidableEq, Repr

/-- Execution state of one run of `main`: effects so far (oldest first) and
the deferred calls (most recently registered first). -/
structure State where
  trace : List Event := []
  deferred : List Deferred := []
  deriving DecidableEq, Repr

/-! ## Primitives -/

/-- Record an effect. -/
def State.emit (st : State) (e : Event) : State :=
  { st with trace := st.trace ++ [e] }

/-- Whether an effect is a GET request handed to the transport. -/
def Event.isGet : Event → Bool
  | .get _ => true
  | _ => false

/-- Number of GET requests handed to the transport among a sequence of
effects. -/
def getCount (tr : List Event) : Nat := (tr.filter Event.isGet).length

/-- Number of GET requests handed to the transport so far. -/
def State.gets (st : State) : Nat := getCount st.trace

/-- The request loop of the default client (`Client.do` with the default
redirect policy): send the request; a transport error or a response that is
not a redirect ends the call; a redirect is followed with a new GET to its
location as long as `allowed`, the number of redirects the policy still lets
through, is not used up, and ends the call with the policy's error
otherwise. -/
def clientDo (env : Env) : Nat → Bytes → State → GetResult × State
  | allowed, url, st =>
    match env url st.gets, allowed with
    | .fail err, _ => (.fail err, st.emit (.get url))
    | .ok resp, _ => (.ok resp, st.emit (.get url))
    | .redirect _ stopped, 0 => (.fail stopped, st.emit (.get url))
    | .redirect location _, k + 1 => clientDo env k location (st.emit (.get url))

/-- The call `http.Get(url)`, served by the default client: its policy stops
once 10 requests were made, so the first request may be followed by up to 9
redirects. -/
def httpGet (env : Env) (url : Bytes) (st : State) : GetResult × State :=
  clientDo env 9 url (st.emit (.httpGet url))

/-- The call `ioutil.ReadAll(r)`. -/
def ReadAll (r : ReadCloser) (st : State) : (Bytes × Option GoError) × State :=
  ((r.data, r.readErr), st.emit .readAll)

/-- The call `r.Close()`; `main` drops its result. -/
def Close (r : ReadCloser) (st : State) : Option GoError × State :=
  (r.closeErr, st.emit .close)

/-- The call `fmt.Println(operands...)`; `main` drops its result. -/
def Println (operands : List Bytes) (st : State) : State :=
  st.emit (.println operands)

/-- The statement `defer d`. -/
def defer (d : Deferred) (st : State) : State :=
  { st with deferred := d :: st.deferred }

/-- Run one deferred call. -/
def Deferred.run : Deferred → State → State
  | .closeBody body, st => (Close body st).2

/-- Run the deferred calls, last registered first. -/
def runDeferred : List Deferred → State → State
  | [], st => st
  | d :: ds, st => runDeferred ds (d.run st)

/-- The result of a run: the effects and how the process ended. -/
structure Run where
  trace : List Event
  termination : Termination
  deriving DecidableEq, Repr

/-- A `return` from `main` (or falling off its end): the deferred calls run and
the function returns. -/
def ret (st : State) : Run :=
  { trace := (runDeferred st.deferred { st with deferred := [] }).trace
    termination := .returned }

/-! ## The program -/

/-- The function `main` of `main.go`. -/
def main (env : Env) : Run :=
  let url := lit "https://jsonplaceholder.typicode.com/posts/1"
  match httpGet env url {} with
  | (.fail err, st) =>
      let st := Println [lit "Error:", err.Error] st
      ret st
  | (.ok resp, st) =>
      let st := defer (.closeBody resp.Body) st
      match ReadAll resp.Body st with
      | ((_, some err), st) =>
          let st := Println [lit "Error reading response body:", err.Error] st
          ret st
      | ((body, none), st) =>
          let st := Println [lit "Response Status:", resp.Status] st
          let st := Println [lit "Response Body:", body] st
          ret st

/-! ## Observations on a run -/

/-- What `fmt.Println` writes: the operands separated by single spaces, then a
newline. -/
def Sprintln (operands : List Bytes) : Bytes :=
  (lit " ").intercalate operands ++ lit "\n"

/-- The bytes written to standard output by a sequence of effects. -/
def stdoutOf : List Event → Bytes
  | [] => []
  | .println ops :: es => Sprintln ops ++ stdoutOf es
  | _ :: es => stdoutOf es

/-- Standard output of a run. -/
def Run.stdout (r : Run) : Bytes := stdoutOf r.trace

/-- Exit status of the process: 0 when `main` returns, the given code on an
explicit exit, 2 on an unrecovered panic. -/
def Termination.exitStatus : Termination → Nat
  | .returned => 0
  | .exited code => code
  | .panicked => 2

/-- The environment's answer to the request `main` issues: the pair that its
call of `http.Get` returns. -/
def answer (env : Env) : GetResult :=
  (httpGet env (lit "https://jsonplaceholder.typicode.com/posts/1") {}).1

/-- The effects of the call of `http.Get` that `main` makes: the call and the
GET requests it hands to the transport. -/
def requests (env : Env) : List Event :=
  (httpGet env (lit "https://jsonplaceholder.typicode.com/posts/1") {}).2.trace

/-- Whether an effect is a call of `http.Get`. -/
def Event.isCall : Event → Bool
  | .httpGet _ => true
  | _ => false

/-- Whether an effect belongs to a call of `http.Get`. -/
def Event.isRequest : Event → Bool
  | .httpGet _ => true
  | .get _ => true
  | _ => false

/-- The `Response Status:` print of the success path. -/
def Event.isStatusLine : Event → Bool
  | .println (l :: _) => l = lit "Response Status:"
  | _ => false

/-- The `Response Body:` print of the success path. -/
def Event.isBodyLine : Event → Bool
  | .println (l :: _) => l = lit "Response Body:"
  | _ => false

/-- One of the two error diagnostics. -/
def Event.isDiagnostic : Event → Bool
  | .println (l :: _) => l = lit "Error:" || l = lit "Error reading response body:"
  | _ => false

/-- The newline byte. -/
def nl : UInt8 := 10

/-- The lines of a text: maximal runs of bytes other than newline, each ended
by a newline (the last one possibly by the end of the text). -/
def lines : Bytes → List Bytes
  | [] => []
  | c :: cs =>
    if c = nl then [] :: lines cs
    else
      match lines cs with
      | [] => [[c]]
      | l :: ls => (c :: l) :: ls

/-- What a run's output depends on: the transport error, or the status line
with the result of the read. -/
def GetResult.observed : GetResult → GoError ⊕ (Bytes × Bytes × Option GoError)
  | .fail err => .inl err
  | .ok resp => .inr (resp.Status, resp.Body.data, resp.Body.readErr)

/-- The output the three paths produce, as a function of what was observed. -/
def outputFor : GoError ⊕ (Bytes × Bytes × Option GoError) → Bytes
  | .inl err => lit "Error: " ++ err.Error ++ lit "\n"
  | .inr (_, _, some err) => lit "Error reading response body: " ++ err.Error ++ lit "\n"
  | .inr (s, b, none) =>
      lit "Response Status: " ++ s ++ lit "\n" ++ (lit "Response Body: " ++ b ++ lit "\n")

/-! ## Sample environments -/

/-- An endpoint answering `200 OK` with the body `{"id":1}`. -/
def envOK : Env :=
  fun _ _ => .ok { Status := lit "200 OK",
                   Body := { data := lit "\x7b\"id\":1\x7d", readErr := none, closeErr := none } }

/-- An unreachable host. -/
def envDown : Env :=
  fun _ _ => .fail { Error := lit "Get \"https://jsonplaceholder.typicode.com/posts/1\": dial tcp 10.255.255.1:443: i/o timeout" }

/-- An endpoint that answers the request for the program's URL with a redirect
to `/posts/2`, and the request for that one with `200 OK`. -/
def envMoved : Env :=
  fun url _ =>
    if url = lit "https://jsonplaceholder.typicode.com/posts/1" then
      .redirect (lit "https://jsonplaceholder.typicode.com/posts/2")
        { Error := lit "Get \"/posts/2\": stopped after 10 redirects" }
    else
      .ok { Status := lit "200 OK",
            Body := { data := lit "\x7b\"id\":2\x7d", readErr := none, closeErr := none } }

/-- An endpoint that redirects every request to the program's URL. -/
def envLoop : Env :=
  fun _ _ =>
    .redirect (lit "https://jsonplaceholder.typicode.com/posts/1")
      { Error := lit "Get \"/posts/1\": stopped after 10 redirects" }

/-- A connection closed after the first bytes of the body. -/
def envCut : Env :=
  fun _ _ => .ok { Status := lit "200 OK",
                   Body := { data := lit "\x7b\"id\"", readErr := some { Error := lit "unexpected EOF" },
                             closeErr := none } }

/-- Another connection closed mid-body: other status, other bytes read, and a
failing close. -/
def envCutLater : Env :=
  fun _ _ => .ok { Status := lit "503 Service Unavailable",
                   Body := { data := lit "\x7b\"id\":1,\"ti", readErr := some { Error := lit "unexpected EOF" },
                             closeErr := some { Error := lit "close failed" } } }

/-- An endpoint answering `404 Not Found` with an empty JSON object. -/
def envNotFound : Env :=
  fun _ _ => .ok { Status := lit "404 Not Found",
                   Body := { data := lit "\x7b\x7d", readErr := none, closeErr := none } }

/-- An endpoint answering `200 OK` with a body laid out on three lines. -/
def envPretty : Env :=
  fun _ _ => .ok { Status := lit "200 OK",
                   Body := { data := lit "\x7b\n  \"id\": 1\n\x7d", readErr := none, closeErr := none } }

/-- An endpoint answering like `envOK` on the first call only, with a close
that fails. -/
def envOKOnce : Env :=
  fun _ n =>
    if n = 0 then
      .ok { Status := lit "200 OK",
            Body := { data := lit "\x7b\"id\":1\x7d", readErr := none,
                      closeErr := some { Error := lit "close failed" } } }
    else .fail { Error := lit "connection refused" }

/-! ## The call of `http.Get` -/

theorem clientDo_deferred (env : Env) (allowed : Nat) (url : Bytes) (st : State) :
    (clientDo env allowed url st).2.deferred = st.deferred := by
  induction allowed generalizing url st with
  | zero =>
    unfold clientDo
    cases env url st.gets <;> simp [State.emit]
  | succ k ih =>
    unfold clientDo
    cases env url st.gets <;> simp [State.emit, ih]

theorem clientDo_trace (env : Env) (allowed : Nat) (url : Bytes) (st : State) :
    ∃ gs, (clientDo env allowed url st).2.trace = st.trace ++ .get url :: gs
      ∧ (∀ e ∈ gs, Event.isGet e = true) ∧ gs.length ≤ allowed := by
  induction allowed generalizing url st with
  | zero =>
    refine ⟨[], ?_, by simp, by simp⟩
    unfold clientDo
    cases env url st.gets <;> simp [State.emit]
  | succ k ih =>
    unfold clientDo
    cases env url st.gets with
    | fail err => exact ⟨[], by simp [State.emit], by simp, by simp⟩
    | ok resp => exact ⟨[], by simp [State.emit], by simp, by simp⟩
    | redirect location stopped =>
      obtain ⟨gs, hg, hall, hlen⟩ := ih location (st.emit (.get url))
      refine ⟨.get location :: gs, ?_, ?_, ?_⟩
      · rw [hg]
        simp [State.emit]
      · intro e he
        rcases List.mem_cons.1 he with rfl | he
        · rfl
        · exact hall e he
      · simp only [List.length_cons]
        omega

theorem requests_shape (env : Env) :
    ∃ gs, requests env
        = .httpGet (lit "https://jsonplaceholder.typicode.com/posts/1")
            :: .get (lit "https://jsonplaceholder.typicode.com/posts/1") :: gs
      ∧ (∀ e ∈ gs, Event.isGet e = true) ∧ gs.length ≤ 9 := by
  obtain ⟨gs, hg, hall, hlen⟩ :=
    clientDo_trace env 9 (lit "https://jsonplaceholder.typicode.com/posts/1")
      (State.emit {} (.httpGet (lit "https://jsonplaceholder.typicode.com/posts/1")))
  exact ⟨gs, by simpa [requests, httpGet, State.emit] using hg, hall, hlen⟩

theorem requests_one (env : Env) :
    (requests env).length = 2
      ↔ ∀ location stopped,
          env (lit "https://jsonplaceholder.typicode.com/posts/1") 0
            ≠ .redirect location stopped := by
  have h0 : State.gets (State.emit {} (.httpGet (lit "https://jsonplaceholder.typicode.com/posts/1")))
      = 0 := rfl
  unfold requests httpGet clientDo
  rw [h0]
  cases h : env (lit "https://jsonplaceholder.typicode.com/posts/1") 0 with
  | fail err => simp [State.emit]
  | ok resp => simp [State.emit]
  | redirect location stopped =>
    obtain ⟨gs, hg, -, -⟩ := clientDo_trace env 8 location
      ((State.emit {} (.httpGet (lit "https://jsonplaceholder.typicode.com/posts/1"))).emit
        (.get (lit "https://jsonplaceholder.typicode.com/posts/1")))
    simp only [hg]
    simp [State.emit]

theorem requests_isRequest (env : Env) : ∀ e ∈ requests env, Event.isRequest e = true := by
  obtain ⟨gs, hg, hall, -⟩ := requests_shape env
  intro e he
  rw [hg] at he
  rcases List.mem_cons.1 he with rfl | he
  · rfl
  rcases List.mem_cons.1 he with rfl | he
  · rfl
  · have := hall e he
    cases e <;> simp_all [Event.isGet, Event.isRequest]

/-! ## The three paths of `main` -/

theorem main_fail (env : Env) (err : GoError) (h : answer env = .fail err) :
    main env =
      { trace := requests env ++ [.println [lit "Error:", err.Error]]
        termination := .returned } := by
  have hd : (httpGet env (lit "https://jsonplaceholder.typicode.com/posts/1") {}).2.deferred
      = [] := clientDo_deferred _ _ _ _
  unfold answer at h
  unfold main requests
  rcases hp : httpGet env (lit "https://jsonplaceholder.typicode.com/posts/1") {} with ⟨r, st⟩
  rw [hp] at h hd
  simp only at h hd
  subst h
  simp [hp, Println, ret, State.emit, hd, runDeferred]

theorem main_readFail (env : Env) (resp : Response) (err : GoError)
    (h : answer env = .ok resp) (hr : resp.Body.readErr = some err) :
    main env =
      { trace := requests env ++
                 [.readAll,
                  .println [lit "Error reading response body:", err.Error],
                  .close]
        termination := .returned } := by
  have hd : (httpGet env (lit "https://jsonplaceholder.typicode.com/posts/1") {}).2.deferred
      = [] := clientDo_deferred _ _ _ _
  unfold answer at h
  unfold main requests
  rcases hp : httpGet env (lit "https://jsonplaceholder.typicode.com/posts/1") {} with ⟨r, st⟩
  rw [hp] at h hd
  simp only at h hd
  subst h
  simp [hp, Println, ret, State.emit, hd, runDeferred, ReadAll, hr, defer, Deferred.run, Close]

theorem main_ok (env : Env) (resp : Response)
    (h : answer env = .ok resp) (hr : resp.Body.readErr = none) :
    main env =
      { trace := requests env ++
                 [.readAll,
                  .println [lit "Response Status:", resp.Status],
                  .println [lit "Response Body:", resp.Body.data],
                  .close]
        termination := .returned } := by
  have hd : (httpGet env (lit "https://jsonplaceholder.typicode.com/posts/1") {}).2.deferred
      = [] := clientDo_deferred _ _ _ _
  unfold answer at h
  unfold main requests
  rcases hp : httpGet env (lit "https://jsonplaceholder.typicode.com/posts/1") {} with ⟨r, st⟩
  rw [hp] at h hd
  simp only at h hd
  subst h
  simp [hp, Println, ret, State.emit, hd, runDeferred, ReadAll, hr, defer, Deferred.run, Close]

/-! ## What the call of `http.Get` leaves in the trace -/

theorem requests_readAll (env : Env) : Event.readAll ∉ requests env := by
  intro h
  have := requests_isRequest env _ h
  simp [Event.isRequest] at this

theorem requests_close (env : Env) : Event.close ∉ requests env := by
  intro h
  have := requests_isRequest env _ h
  simp [Event.isRequest] at this

theorem requests_statusLine (env : Env) : (requests env).any Event.isStatusLine = false := by
  rw [List.any_eq_false]
  intro e he
  have := requests_isRequest env e he
  cases e <;> simp_all [Event.isRequest, Event.isStatusLine]

theorem requests_bodyLine (env : Env) : (requests env).any Event.isBodyLine = false := by
  rw [List.any_eq_false]
  intro e he
  have := requests_isRequest env e he
  cases e <;> simp_all [Event.isRequest, Event.isBodyLine]

theorem requests_diagnostic (env : Env) : (requests env).any Event.isDiagnostic = false := by
  rw [List.any_eq_false]
  intro e he
  have := requests_isRequest env e he
  cases e <;> simp_all [Event.isRequest, Event.isDiagnostic]

theorem requests_prints (env : Env) :
    (requests env).filter (fun e => e matches .println _) = [] := by
  rw [List.filter_eq_nil_iff]
  intro e he
  have := requests_isRequest env e he
  cases e <;> simp_all [Event.isRequest]

theorem stdoutOf_requests (env : Env) (rest : List Event) :
    stdoutOf (requests env ++ rest) = stdoutOf rest := by
  have h := requests_isRequest env
  generalize requests env = l at h
  induction l with
  | nil => rfl
  | cons e es ih =>
    have he := h e (List.mem_cons_self _ _)
    have hes : ∀ x ∈ es, Event.isRequest x = true := fun x hx => h x (List.mem_cons_of_mem _ hx)
    cases e <;> simp_all [Event.isRequest, stdoutOf]

/-! ## Rendering of the prints -/

theorem Sprintln_pair (l x : Bytes) :
    Sprintln [l, x] = l ++ lit " " ++ x ++ lit "\n" := by
  simp [Sprintln, List.intercalate, List.intersperse]

theorem stdoutOf_fail (e : Bytes) :
    stdoutOf [.println [lit "Error:", e]] = lit "Error: " ++ e ++ lit "\n" := by
  have hl : lit "Error: " = lit "Error:" ++ lit " " := by decide
  simp [stdoutOf, Sprintln_pair, hl]

theorem stdoutOf_readFail (e : Bytes) :
    stdoutOf [.readAll, .println [lit "Error reading response body:", e], .close]
      = lit "Error reading response body: " ++ e ++ lit "\n" := by
  have hl : lit "Error reading response body: "
      = lit "Error reading response body:" ++ lit " " := by decide
  simp [stdoutOf, Sprintln_pair, hl]

theorem stdoutOf_ok (s b : Bytes) :
    stdoutOf [.readAll, .println [lit "Response Status:", s],
              .println [lit "Response Body:", b], .close]
      = lit "Response Status: " ++ s ++ lit "\n" ++ (lit "Response Body: " ++ b ++ lit "\n") := by
  have hs : lit "Response Status: " = lit "Response Status:" ++ lit " " := by decide
  have hb : lit "Response Body: " = lit "Response Body:" ++ lit " " := by decide
  simp [stdoutOf, Sprintln_pair, hs, hb]

/-! ## Shape of every run -/

theorem main_stdout (env : Env) : (main env).stdout = outputFor (answer env).observed := by
  cases h : answer env with
  | fail err =>
    rw [main_fail env err h]
    simp only [Run.stdout, GetResult.observed, outputFor, stdoutOf_requests]
    exact stdoutOf_fail _
  | ok resp =>
    cases hr : resp.Body.readErr with
    | some err =>
      rw [main_readFail env resp err h hr]
      simp only [Run.stdout, GetResult.observed, outputFor, hr, stdoutOf_requests]
      exact stdoutOf_readFail _
    | none =>
      rw [main_ok env resp h hr]
      simp only [Run.stdout, GetResult.observed, outputFor, hr, stdoutOf_requests]
      exact stdoutOf_ok _ _

theorem main_returned (env : Env) : (main env).termination = .returned := by
  cases h : answer env with
  | fail err => rw [main_fail env err h]
  | ok resp =>
    cases hr : resp.Body.readErr with
    | some err => rw [main_readFail env resp err h hr]
    | none => rw [main_ok env resp h hr]

/-! ## Claims -/

/-- C1: when the GET yields a response with status line `s` and the body is
read completely without error into `b` (empty or not), standard output is
exactly `Response Status: ` `s` newline `Response Body: ` `b` newline, the
body bytes unchanged and nothing else; for `200 OK` and `{"id":1}` it is
`Response Status: 200 OK` followed by `Response Body: {"id":1}`. -/
theorem C1_success_output (env : Env) (resp : Response)
    (h : answer env = .ok resp) (hr : resp.Body.readErr = none) :
    (main env).stdout
        = lit "Response Status: " ++ resp.Status ++ lit "\n"
            ++ (lit "Response Body: " ++ resp.Body.data ++ lit "\n")
      ∧ (resp.Status = lit "200 OK" → resp.Body.data = lit "\x7b\"id\":1\x7d" →
          (main env).stdout
            = lit "Response Status: 200 OK\nResponse Body: \x7b\"id\":1\x7d\n") := by
  have hout := main_stdout env
  rw [h] at hout
  simp only [GetResult.observed, hr, outputFor] at hout
  refine ⟨hout, ?_⟩
  intro hs hb
  rw [hout, hs, hb]
  decide

theorem C1_success_output_witness :
    answer envOK = .ok { Status := lit "200 OK",
                         Body := { data := lit "\x7b\"id\":1\x7d", readErr := none,
                                   closeErr := none } }
      ∧ (main envOK).stdout
          = lit "Response Status: 200 OK\nResponse Body: \x7b\"id\":1\x7d\n" :=
  ⟨rfl, (C1_success_output envOK _ rfl rfl).2 rfl rfl⟩

/-- C2: when the GET fails with error description `e`, standard output is
exactly `Error: ` `e` newline and `main` returns; the body is not read and
neither the `Response Status:` print nor the `Response Body:` print is
performed. -/
theorem C2_transport_failure (env : Env) (err : GoError) (h : answer env = .fail err) :
    (main env).stdout = lit "Error: " ++ err.Error ++ lit "\n"
      ∧ (main env).termination = .returned
      ∧ Event.readAll ∉ (main env).trace
      ∧ (main env).trace.any Event.isStatusLine = false
      ∧ (main env).trace.any Event.isBodyLine = false := by
  have hout := main_stdout env
  rw [h] at hout
  refine ⟨hout, main_returned env, ?_, ?_, ?_⟩
  · rw [main_fail env err h]
    simp [requests_readAll]
  · rw [main_fail env err h]
    have hne : lit "Error:" ≠ lit "Response Status:" := by decide
    simp [requests_statusLine, Event.isStatusLine, hne]
  · rw [main_fail env err h]
    have hne : lit "Error:" ≠ lit "Response Body:" := by decide
    simp [requests_bodyLine, Event.isBodyLine, hne]

theorem C2_transport_failure_witness :
    answer envDown
        = .fail { Error := lit "Get \"https://jsonplaceholder.typicode.com/posts/1\": dial tcp 10.255.255.1:443: i/o timeout" }
      ∧ (main envDown).stdout
          = lit "Error: Get \"https://jsonplaceholder.typicode.com/posts/1\": dial tcp 10.255.255.1:443: i/o timeout\n"
      ∧ (main envDown).trace.any Event.isStatusLine = false :=
  ⟨rfl,
   (C2_transport_failure envDown _ rfl).1.trans (by decide),
   (C2_transport_failure envDown _ rfl).2.2.2.1⟩

/-- C3: when a response is obtained but reading its body fails with error
description `e`, standard output is exactly `Error reading response body: `
`e` newline and `main` returns; the `Response Status:` print is performed
nowhere in the run, neither before nor after the diagnostic. -/
theorem C3_read_failure (env : Env) (resp : Response) (err : GoError)
    (h : answer env = .ok resp) (hr : resp.Body.readErr = some err) :
    (main env).stdout = lit "Error reading response body: " ++ err.Error ++ lit "\n"
      ∧ (main env).termination = .returned
      ∧ (main env).trace.any Event.isStatusLine = false
      ∧ (main env).trace.any Event.isBodyLine = false := by
  have hout := main_stdout env
  rw [h] at hout
  simp only [GetResult.observed, hr, outputFor] at hout
  refine ⟨hout, main_returned env, ?_, ?_⟩
  · rw [main_readFail env resp err h hr]
    have hne : lit "Error reading response body:" ≠ lit "Response Status:" := by decide
    simp [requests_statusLine, Event.isStatusLine, hne]
  · rw [main_readFail env resp err h hr]
    have hne : lit "Error reading response body:" ≠ lit "Response Body:" := by decide
    simp [requests_bodyLine, Event.isBodyLine, hne]

theorem C3_read_failure_witness :
    (main envCut).stdout = lit "Error reading response body: unexpected EOF\n"
      ∧ (main envCut).trace.any Event.isStatusLine = false :=
  ⟨(C3_read_failure envCut _ _ rfl rfl).1.trans (by decide),
   (C3_read_failure envCut _ _ rfl rfl).2.2.1⟩

/-- C4: on both paths on which a response was obtained (read succeeds, read
fails) the body is closed exactly once, after the one read attempt; on the
transport-failure path no close is performed. -/
theorem C4_close_once (env : Env) :
    match answer env with
    | .fail _ => (main env).trace.count .close = 0
    | .ok _ =>
        (main env).trace.count .close = 1
          ∧ (main env).trace.count .readAll = 1
          ∧ (main env).trace.indexOf .readAll < (main env).trace.indexOf .close := by
  have hc := requests_close env
  have hr0 := requests_readAll env
  cases h : answer env with
  | fail err =>
    simp only
    rw [main_fail env err h]
    simp [List.count_eq_zero_of_not_mem hc]
  | ok resp =>
    simp only
    cases hr : resp.Body.readErr with
    | some err =>
      rw [main_readFail env resp err h hr]
      simp [List.count_eq_zero_of_not_mem hc, List.count_eq_zero_of_not_mem hr0,
        List.indexOf_append_of_not_mem hc, List.indexOf_append_of_not_mem hr0, List.indexOf_cons]
    | none =>
      rw [main_ok env resp h hr]
      simp [List.count_eq_zero_of_not_mem hc, List.count_eq_zero_of_not_mem hr0,
        List.indexOf_append_of_not_mem hc, List.indexOf_append_of_not_mem hr0, List.indexOf_cons]

/-- C5 fails as stated: when the endpoint answers the request for the
program's URL with a redirect to `/posts/2`, the default client follows it, so
the run hands two GET requests to the transport, the second one to another
URL; when every answer is a redirect, it hands over ten. -/
theorem C5_counterexample :
    getCount (main envMoved).trace = 2
      ∧ (main envMoved).trace.filter Event.isGet
          = [.get (lit "https://jsonplaceholder.typicode.com/posts/1"),
             .get (lit "https://jsonplaceholder.typicode.com/posts/2")]
      ∧ getCount (main envMoved).trace ≠ 1
      ∧ getCount (main envLoop).trace = 10 := by
  refine ⟨?_, ?_, ?_, ?_⟩ <;> decide

/-- C5 (amended): every run of `main` calls `http.Get` exactly once, with the
literal URL `https://jsonplaceholder.typicode.com/posts/1`, whether the
transport fails, the read fails or both succeed, and never calls it again
after an error.  The first GET request handed to the transport is for that
URL; the call hands over between 1 and 10 GET requests, and exactly 1 if and
only if the answer to the first request is not a redirect that the client
follows. -/
theorem C5_single_call (env : Env) :
    (main env).trace.filter Event.isCall
        = [.httpGet (lit "https://jsonplaceholder.typicode.com/posts/1")]
      ∧ (∃ rest, (main env).trace.filter Event.isGet
          = .get (lit "https://jsonplaceholder.typicode.com/posts/1") :: rest)
      ∧ 1 ≤ getCount (main env).trace
      ∧ getCount (main env).trace ≤ 10
      ∧ (getCount (main env).trace = 1
          ↔ ∀ location stopped,
              env (lit "https://jsonplaceholder.typicode.com/posts/1") 0
                ≠ .redirect location stopped) := by
  obtain ⟨gs, hg, hall, hlen⟩ := requests_shape env
  have hone := requests_one env
  have hgets : ∀ l : List Event, l.filter Event.isGet = [] →
      (requests env ++ l).filter Event.isGet
        = .get (lit "https://jsonplaceholder.typicode.com/posts/1") :: gs := by
    intro l hl
    rw [List.filter_append, hl, hg]
    simp [Event.isGet, List.filter_eq_self.2 hall]
  have hcalls : ∀ l : List Event, l.filter Event.isCall = [] →
      (requests env ++ l).filter Event.isCall
        = [.httpGet (lit "https://jsonplaceholder.typicode.com/posts/1")] := by
    intro l hl
    have hno : gs.filter Event.isCall = [] := by
      rw [List.filter_eq_nil_iff]
      intro e he
      have := hall e he
      cases e <;> simp_all [Event.isGet, Event.isCall]
    rw [List.filter_append, hl, hg]
    simp [Event.isCall, hno]
  have hlen1 : gs.length = 0 ↔ ∀ location stopped,
      env (lit "https://jsonplaceholder.typicode.com/posts/1") 0
        ≠ .redirect location stopped := by
    rw [← hone, hg]
    simp
  have key : ∀ l : List Event, l.filter Event.isGet = [] → l.filter Event.isCall = [] →
      (requests env ++ l).filter Event.isCall
          = [.httpGet (lit "https://jsonplaceholder.typicode.com/posts/1")]
        ∧ (∃ rest, (requests env ++ l).filter Event.isGet
            = .get (lit "https://jsonplaceholder.typicode.com/posts/1") :: rest)
        ∧ 1 ≤ getCount (requests env ++ l)
        ∧ getCount (requests env ++ l) ≤ 10
        ∧ (getCount (requests env ++ l) = 1
            ↔ ∀ location stopped,
                env (lit "https://jsonplaceholder.typicode.com/posts/1") 0
                  ≠ .redirect location stopped) := by
    intro l hl hl2
    refine ⟨hcalls l hl2, ⟨gs, hgets l hl⟩, ?_, ?_, ?_⟩
    · simp only [getCount, hgets l hl, List.length_cons]
      omega
    · simp only [getCount, hgets l hl, List.length_cons]
      omega
    · rw [← hlen1]
      simp only [getCount, hgets l hl, List.length_cons]
      omega
  cases h : answer env with
  | fail err =>
    rw [main_fail env err h]
    exact key _ rfl rfl
  | ok resp =>
    cases hr : resp.Body.readErr with
    | some err =>
      rw [main_readFail env resp err h hr]
      exact key _ rfl rfl
    | none =>
      rw [main_ok env resp h hr]
      exact key _ rfl rfl

theorem C5_single_call_witness :
    getCount (main envOK).trace = 1
      ∧ (main envOK).trace.filter Event.isCall
          = [.httpGet (lit "https://jsonplaceholder.typicode.com/posts/1")] :=
  ⟨(C5_single_call envOK).2.2.2.2.2 (by intro location stopped; simp [envOK]),
   (C5_single_call envOK).1⟩

/-! ## Lines of a text -/

theorem lines_append_nl (xs rest : Bytes) (hx : nl ∉ xs) :
    lines (xs ++ nl :: rest) = xs :: lines rest := by
  induction xs with
  | nil => simp [lines]
  | cons c cs ih =>
    have hc : c ≠ nl := fun e => hx (by simp [e])
    have hcs : nl ∉ cs := fun m => hx (List.mem_cons_of_mem _ m)
    simp [lines, hc, ih hcs]

theorem lines_length_snoc (xs : Bytes) :
    (lines (xs ++ [nl])).length = xs.count nl + 1 := by
  induction xs with
  | nil => simp [lines]
  | cons c cs ih =>
    by_cases hc : c = nl
    · subst hc
      simp [lines, ih]
    · have hne : (c == nl) = false := by simpa using hc
      cases hl : lines (cs ++ [nl]) with
      | nil => rw [hl] at ih; simp at ih
      | cons l ls =>
        rw [hl] at ih
        simp [lines, hc, hl, List.count_cons, hne] at ih ⊢
        omega

theorem lit_nl : lit "\n" = [nl] := by decide

theorem stdout_ok_lines (s b : Bytes) :
    (lines (lit "Response Status: " ++ s ++ lit "\n"
        ++ (lit "Response Body: " ++ b ++ lit "\n"))).length
      = 2 + s.count nl + b.count nl := by
  have e : lit "Response Status: " ++ s ++ lit "\n" ++ (lit "Response Body: " ++ b ++ lit "\n")
      = (lit "Response Status: " ++ s ++ [nl] ++ (lit "Response Body: " ++ b)) ++ [nl] := by
    simp [lit_nl]
  have c1 : (lit "Response Status: ").count nl = 0 := by decide
  have c2 : (lit "Response Body: ").count nl = 0 := by decide
  rw [e, lines_length_snoc]
  simp only [List.count_append, c1, c2, List.count_singleton_self]
  omega

/-- C6 fails as stated: a successfully read `200 OK` response whose body is the
three-line text `{`, `  "id": 1`, `}` gives an output of four lines, not two. -/
theorem C6_counterexample :
    (∃ resp, answer envPretty = .ok resp ∧ resp.Body.readErr = none)
      ∧ (lines (main envPretty).stdout).length = 4
      ∧ (lines (main envPretty).stdout).length ≠ 2 := by
  refine ⟨⟨_, rfl, rfl⟩, ?_, ?_⟩ <;> decide

/-- C6 (amended): on success `main` performs exactly two prints, the status
one then the body one; the output has 2 lines plus one for every newline byte
in the status line and in the body, so it consists of exactly two lines if and
only if neither contains a newline byte, and these are then
`Response Status: <status>` and `Response Body: <body>`. -/
theorem C6_two_prints (env : Env) (resp : Response)
    (h : answer env = .ok resp) (hr : resp.Body.readErr = none) :
    (main env).trace.filter (fun e => e matches .println _)
        = [.println [lit "Response Status:", resp.Status],
           .println [lit "Response Body:", resp.Body.data]]
      ∧ (lines (main env).stdout).length = 2 + resp.Status.count nl + resp.Body.data.count nl
      ∧ ((lines (main env).stdout).length = 2 ↔ (nl ∉ resp.Status ∧ nl ∉ resp.Body.data))
      ∧ (nl ∉ resp.Status → nl ∉ resp.Body.data →
          lines (main env).stdout
            = [lit "Response Status: " ++ resp.Status, lit "Response Body: " ++ resp.Body.data]) := by
  have hout := main_stdout env
  rw [h] at hout
  simp only [GetResult.observed, hr, outputFor] at hout
  have hlen := stdout_ok_lines resp.Status resp.Body.data
  rw [← hout] at hlen
  refine ⟨?_, hlen, ?_, ?_⟩
  · rw [main_ok env resp h hr]
    simp [requests_prints]
  · rw [hlen, ← List.count_eq_zero, ← List.count_eq_zero]
    omega
  · intro hs hb
    have n1 : nl ∉ lit "Response Status: " ++ resp.Status := by
      have : nl ∉ lit "Response Status: " := by decide
      simp [this, hs]
    have n2 : nl ∉ lit "Response Body: " ++ resp.Body.data := by
      have : nl ∉ lit "Response Body: " := by decide
      simp [this, hb]
    rw [hout, lit_nl]
    have e : lit "Response Status: " ++ resp.Status ++ [nl]
          ++ (lit "Response Body: " ++ resp.Body.data ++ [nl])
        = (lit "Response Status: " ++ resp.Status)
          ++ nl :: ((lit "Response Body: " ++ resp.Body.data) ++ nl :: []) := by simp
    rw [e, lines_append_nl _ _ n1, lines_append_nl _ _ n2]
    rfl

theorem C6_two_prints_witness :
    (lines (main envOK).stdout).length = 2
      ∧ lines (main envOK).stdout
          = [lit "Response Status: 200 OK", lit "Response Body: \x7b\"id\":1\x7d"] :=
  ⟨((C6_two_prints envOK _ rfl rfl).2.2.1).2 (by decide),
   ((C6_two_prints envOK _ rfl rfl).2.2.2 (by decide) (by decide)).trans (by decide)⟩

/-- C7: the bytes read before a read failure are discarded: two runs whose
body reads fail with the same error description produce the same output,
whatever bytes each had read so far and whatever the status lines (and close
results) were. -/
theorem C7_read_bytes_discarded (envA envB : Env) (respA respB : Response) (err : GoError)
    (hA : answer envA = .ok respA) (hB : answer envB = .ok respB)
    (hrA : respA.Body.readErr = some err) (hrB : respB.Body.readErr = some err) :
    (main envA).stdout = (main envB).stdout := by
  rw [main_stdout envA, main_stdout envB, hA, hB]
  simp only [GetResult.observed, hrA, hrB, outputFor]

theorem C7_read_bytes_discarded_witness :
    (∃ respA respB, answer envCut = .ok respA ∧ answer envCutLater = .ok respB
        ∧ respA.Body.data ≠ respB.Body.data ∧ respA.Status ≠ respB.Status)
      ∧ (main envCut).stdout = (main envCutLater).stdout :=
  ⟨⟨_, _, rfl, rfl, by decide, by decide⟩,
   C7_read_bytes_discarded envCut envCutLater _ _ { Error := lit "unexpected EOF" }
     rfl rfl rfl rfl⟩

/-- C8: the output of `main` is a function of the environment's answer to its
one request only (the transport error, or the status line with the bytes and
the error of the read): two runs given the same answer produce byte-identical
output, whatever else differs between the environments. -/
theorem C8_deterministic_output (envA envB : Env)
    (h : (answer envA).observed = (answer envB).observed) :
    (main envA).stdout = (main envB).stdout := by
  rw [main_stdout envA, main_stdout envB, h]

theorem C8_deterministic_output_witness :
    envOK ≠ envOKOnce
      ∧ (answer envOK).observed = (answer envOKOnce).observed
      ∧ (main envOK).stdout = (main envOKOnce).stdout :=
  ⟨fun e => absurd (congrFun (congrFun e []) 1) (by decide),
   rfl,
   C8_deterministic_output envOK envOKOnce rfl⟩

/-- C9: on all three paths (transport failure, read failure, success) `main`
returns normally: it neither exits the process explicitly nor panics, so the
exit status is 0 even on failure. -/
theorem C9_exit_zero (env : Env) :
    (main env).termination = .returned
      ∧ (main env).termination.exitStatus = 0
      ∧ (∀ code, (main env).termination ≠ .exited code)
      ∧ (main env).termination ≠ .panicked := by
  rw [main_returned env]
  simp [Termination.exitStatus]

/-- C10: the path taken never depends on the HTTP status: every response
obtained and read without error, with any status line (`404 Not Found`,
`500 Internal Server Error`, ...), gets the `Response Status:` and
`Response Body:` prints and no error diagnostic; an error diagnostic is
printed if and only if the GET or the body read returned an error. -/
theorem C10_status_independent (env : Env) :
    ((main env).trace.any Event.isDiagnostic = true
        ↔ ((∃ err, answer env = .fail err)
            ∨ ∃ resp err, answer env = .ok resp ∧ resp.Body.readErr = some err))
      ∧ ∀ resp, answer env = .ok resp → resp.Body.readErr = none →
          (main env).trace.filter (fun e => e matches .println _)
              = [.println [lit "Response Status:", resp.Status],
                 .println [lit "Response Body:", resp.Body.data]]
            ∧ (main env).trace.any Event.isStatusLine = true
            ∧ (main env).trace.any Event.isBodyLine = true
            ∧ (main env).trace.any Event.isDiagnostic = false := by
  have d1 : lit "Response Status:" ≠ lit "Error:" := by decide
  have d2 : lit "Response Status:" ≠ lit "Error reading response body:" := by decide
  have d3 : lit "Response Body:" ≠ lit "Error:" := by decide
  have d4 : lit "Response Body:" ≠ lit "Error reading response body:" := by decide
  have d5 : lit "Response Status:" ≠ lit "Response Body:" := by decide
  constructor
  · cases h : answer env with
    | fail err =>
      rw [main_fail env err h]
      simp [requests_diagnostic, Event.isDiagnostic]
    | ok resp =>
      cases hr : resp.Body.readErr with
      | some err =>
        rw [main_readFail env resp err h hr]
        simp [requests_diagnostic, Event.isDiagnostic, hr]
      | none =>
        rw [main_ok env resp h hr]
        simp [requests_diagnostic, Event.isDiagnostic, hr, d1, d2, d3, d4]
  · intro resp h hr
    rw [main_ok env resp h hr]
    simp [requests_prints, requests_statusLine, requests_bodyLine, requests_diagnostic,
      Event.isDiagnostic, Event.isStatusLine, Event.isBodyLine, d1, d2, d3, d4, d5]

theorem C10_status_independent_witness :
    (main envNotFound).stdout = lit "Response Status: 404 Not Found\nResponse Body: \x7b\x7d\n"
      ∧ (main envNotFound).trace.any Event.isStatusLine = true
      ∧ (main envNotFound).trace.any Event.isDiagnostic = false :=
  ⟨by decide,
   ((C10_status_independent envNotFound).2 _ rfl rfl).2.1,
   ((C10_status_independent envNotFound).2 _ rfl rfl).2.2.2⟩

end Noot
